import Mathlib

set_option linter.unusedVariables false

/-!
Shallow embedding of the cookie-session authentication core of the
Sentinel_Training service (`app/auth/router.py`, `app/auth/dependencies.py`,
`app/schemas.py`, `app/main.py`, `app/config.py`).

The relational store is modelled as three lists of rows (one per table of the
alembic schema); timestamps are abstract instants (`Nat`); each handler is a
pure function from the store state and its inputs to an HTTP-level outcome
plus the successor state.  Error outcomes carry the unchanged store state,
mirroring the fact that raising an `HTTPException` before `db.commit()` leaves
the database untouched.  Randomly minted tokens and fresh row ids are passed
as explicit parameters.

String helpers operate on `String.data` so that all definitions reduce inside
the kernel; they model the Python `str` methods used by the source.
-/

namespace Sentinel

/-- Python `str.lower()` restricted to the ASCII case mapping used here. -/
def strLower (s : String) : String := ⟨s.data.map Char.toLower⟩

/-- Python `str.endswith(suf)`. -/
def strEndsWith (s suf : String) : Bool := List.isSuffixOf suf.data s.data

/-- Python `str.startswith(pre)`. -/
def strStartsWith (s pre : String) : Bool := List.isPrefixOf pre.data s.data

/-- Python `any(pred(c) for c in s)`. -/
def strAny (s : String) (p : Char → Bool) : Bool := s.data.any p

/-- Python `len(s)`. -/
def strLen (s : String) : Nat := s.data.length

/-- Python slicing `s[:n]`. -/
def strTake (s : String) (n : Nat) : String := ⟨s.data.take n⟩

/-- Python slicing `s[n:]`. -/
def strDrop (s : String) (n : Nat) : String := ⟨s.data.drop n⟩

/-- The password-storage primitive (`passlib` bcrypt in `app/auth/utils.py`)
is an external capability per the spec; it is modelled as an injective
encoding so that `verify_password` succeeds exactly on the hashed
plaintext. -/
def hash_password (password : String) : String := "bcrypt$" ++ password

/-- `verify_password` from `app/auth/utils.py`, against the modelled hash. -/
def verify_password (plain_password hashed_password : String) : Bool :=
  hash_password plain_password == hashed_password

/-- `Settings.session_expire_days` from `app/config.py`. -/
def session_expire_days : Nat := 7

/-- `Settings.password_reset_expire_hours` from `app/config.py`. -/
def password_reset_expire_hours : Nat := 1

/-- `get_session_expiry` from `app/auth/utils.py`. -/
def get_session_expiry (now : Nat) : Nat := now + session_expire_days * 24 * 60 * 60

/-- `get_password_reset_expiry` from `app/auth/utils.py`. -/
def get_password_reset_expiry (now : Nat) : Nat := now + password_reset_expire_hours * 60 * 60

/-- A row of the `users` table (alembic `001_initial_schema.py`). -/
structure User where
  id : Nat
  email : String
  hashed_password : String
  full_name : Option String
  is_active : Bool
  updated_at : Nat
deriving DecidableEq, Repr

/-- A row of the `sessions` table. -/
structure SessionModel where
  id : Nat
  user_id : Nat
  session_token : String
  expires_at : Nat
  ip_address : Option String
  user_agent : String
deriving DecidableEq, Repr

/-- A row of the `password_reset_tokens` table. -/
structure PasswordResetToken where
  id : Nat
  user_id : Nat
  token : String
  expires_at : Nat
  used : Bool
deriving DecidableEq, Repr

/-- The relational store: the three tables of the schema. -/
structure DB where
  users : List User
  sessions : List SessionModel
  reset_tokens : List PasswordResetToken
deriving DecidableEq, Repr

/-- The `email` field validator of `UserCreate` (`app/schemas.py`).  The
`EmailStr` syntactic check is not modelled; only the domain-suffix rule. -/
def validate_vysus_email (v : String) : Except String String :=
  if strEndsWith (strLower v) "@vysusgroup.com" = false then
    Except.error "Only @vysusgroup.com emails are allowed"
  else Except.ok (strLower v)

/-- The password field validator shared by `UserCreate` and
`ResetPasswordRequest` (`app/schemas.py`). -/
def validate_password (v : String) : Except String String :=
  if strLen v < 10 then Except.error "Password must be at least 10 characters"
  else if strAny v Char.isUpper = false then
    Except.error "Password must contain at least one uppercase letter"
  else if strAny v Char.isLower = false then
    Except.error "Password must contain at least one lowercase letter"
  else if strAny v Char.isDigit = false then
    Except.error "Password must contain at least one number"
  else Except.ok v

/-- `get_current_user_from_cookie` from `app/auth/dependencies.py`:
the session-resolution function. -/
def get_current_user_from_cookie (session_token : String) (db : DB) (now : Nat) : Option User :=
  if session_token = "" then none
  else
    match db.sessions.find? (fun s =>
        s.session_token == session_token && decide (now < s.expires_at)) with
    | none => none
    | some s => db.users.find? (fun u => u.id == s.user_id && u.is_active)

/-- Outcome of the `register` endpoint.  `validationError` is the 422 raised
by pydantic before the handler body runs; `err` is an `HTTPException`;
each outcome carries the successor store state. -/
inductive RegisterResult where
  | validationError (detail : String) (db : DB)
  | err (status : Nat) (detail : String) (db : DB)
  | ok (message : String) (db : DB)
deriving DecidableEq, Repr

/-- `register` from `app/auth/router.py`, composed with the pydantic
validation of `UserCreate`.  `new_id` is the fresh row id. -/
def register (db : DB) (email password : String) (full_name : Option String)
    (new_id now : Nat) : RegisterResult :=
  match validate_vysus_email email with
  | Except.error e => RegisterResult.validationError e db
  | Except.ok em =>
    match validate_password password with
    | Except.error e => RegisterResult.validationError e db
    | Except.ok pw =>
      match db.users.find? (fun u => u.email == strLower em) with
      | some _ => RegisterResult.err 400 "An account with this email already exists" db
      | none =>
        RegisterResult.ok "Registration successful. You can now log in."
          { db with users :=
              db.users ++ [⟨new_id, strLower em, hash_password pw, full_name, true, now⟩] }

/-- The `set_cookie` instruction issued by `login`. -/
structure SetCookie where
  key : String
  value : String
  httponly : Bool
  secure : Bool
  samesite : String
  max_age : Nat
deriving DecidableEq, Repr

/-- Outcome of the `login` endpoint. -/
inductive LoginResult where
  | err (status : Nat) (detail : String) (db : DB)
  | ok (user : User) (cookie : SetCookie) (db : DB)
deriving DecidableEq, Repr

/-- `login` from `app/auth/router.py`.  `new_token` is the freshly minted
session token and `new_id` the fresh session row id. -/
def login (db : DB) (email password : String) (new_token : String) (new_id now : Nat)
    (ip_address : Option String) (user_agent : String) (environment : String) : LoginResult :=
  match db.users.find? (fun u => u.email == strLower email) with
  | none => LoginResult.err 401 "Invalid email or password" db
  | some user =>
    if verify_password password user.hashed_password = false then
      LoginResult.err 401 "Invalid email or password" db
    else if user.is_active = false then
      LoginResult.err 403 "Account is deactivated" db
    else
      LoginResult.ok user
        ⟨"session_token", new_token, true, environment == "production", "lax",
          session_expire_days * 24 * 60 * 60⟩
        { db with sessions :=
            db.sessions ++
              [⟨new_id, user.id, new_token, get_session_expiry now, ip_address,
                strTake user_agent 500⟩] }

/-- `logout` from `app/auth/router.py`: idempotent session deletion plus a
delete-cookie instruction. -/
def logout (db : DB) (cookie : Option String) : String × DB :=
  match cookie with
  | none => ("Logged out successfully", db)
  | some tok =>
    if tok = "" then ("Logged out successfully", db)
    else ("Logged out successfully",
      { db with sessions := db.sessions.filter (fun s => !(s.session_token == tok)) })

/-- `forgot_password` from `app/auth/router.py`.  The email-send capability
is external and its failures are swallowed by the handler, so it does not
appear in the state transition.  Returns the response body and the successor
state. -/
def forgot_password (db : DB) (email new_token : String) (new_id now : Nat) : String × DB :=
  match db.users.find? (fun u => u.email == strLower email) with
  | none => ("If an account exists with this email, you will receive a password reset link.", db)
  | some user =>
    if user.is_active then
      ("If an account exists with this email, you will receive a password reset link.",
        { db with reset_tokens :=
            (db.reset_tokens.map (fun t =>
              if t.user_id == user.id && !t.used then { t with used := true } else t)) ++
            [⟨new_id, user.id, new_token, get_password_reset_expiry now, false⟩] })
    else ("If an account exists with this email, you will receive a password reset link.", db)

/-- `first()` followed by in-place mutation of the fetched ORM row: update
the first list element satisfying `p`. -/
def updateFirst {α : Type} (p : α → Bool) (f : α → α) : List α → List α
  | [] => []
  | a :: l => if p a then f a :: l else a :: updateFirst p f l

/-- The consumable-token query of `reset_password`: token match, `used=false`
and `expires_at > now`. -/
def find_consumable (token : String) (now : Nat) (l : List PasswordResetToken) :
    Option PasswordResetToken :=
  l.find? (fun t => t.token == token && !t.used && decide (now < t.expires_at))

/-- Outcome of the `reset_password` endpoint. -/
inductive ResetResult where
  | validationError (detail : String) (db : DB)
  | err (status : Nat) (detail : String) (db : DB)
  | ok (message : String) (db : DB)
deriving DecidableEq, Repr

/-- `reset_password` from `app/auth/router.py`, composed with the pydantic
validation of `ResetPasswordRequest` (which FastAPI runs before the handler
body).  The handler commits once, so the three mutations (digest update,
mark-used, session wipe) appear in a single successor state. -/
def reset_password (db : DB) (token new_password : String) (now : Nat) : ResetResult :=
  match validate_password new_password with
  | Except.error e => ResetResult.validationError e db
  | Except.ok pw =>
    match find_consumable token now db.reset_tokens with
    | none => ResetResult.err 400 "Invalid or expired reset token" db
    | some rt =>
      match db.users.find? (fun u => u.id == rt.user_id) with
      | none => ResetResult.err 400 "User not found" db
      | some user =>
        ResetResult.ok "Password reset successful. Please log in with your new password."
          { users := updateFirst (fun u => u.id == rt.user_id)
              (fun u => { u with hashed_password := hash_password pw, updated_at := now })
              db.users,
            sessions := db.sessions.filter (fun s => !(s.user_id == user.id)),
            reset_tokens := updateFirst
              (fun t => t.token == token && !t.used && decide (now < t.expires_at))
              (fun t => { t with used := true }) db.reset_tokens }

/-- `AuthMiddleware.PUBLIC_PATHS` from `app/main.py`. -/
def PUBLIC_PATHS : List String :=
  ["/login", "/register", "/reset-password", "/forgot-password", "/api/auth/",
   "/api/health", "/favicon.ico"]

/-- The public-path test of `AuthMiddleware.dispatch`:
`any(path.startswith(p) for p in PUBLIC_PATHS)`. -/
def is_public (path : String) : Bool :=
  PUBLIC_PATHS.any (fun p => strStartsWith path p)

/-- Decision of the gate middleware for one request. -/
inductive GateResult where
  | next
  | redirect (url : String) (delete_cookie : Bool)
  | allow (user : User)
deriving DecidableEq, Repr

/-- `AuthMiddleware.dispatch` from `app/main.py`.  `cookie` is the value of
the `session_token` cookie if present; `fault` models an unexpected exception
raised while resolving the session (the `except Exception` arm). -/
def dispatch (path : String) (cookie : Option String) (db : DB) (now : Nat)
    (fault : Bool) : GateResult :=
  if is_public path then GateResult.next
  else
    match cookie with
    | none => GateResult.redirect "/login" false
    | some tok =>
      if tok = "" then GateResult.redirect "/login" false
      else if fault then GateResult.redirect "/login" false
      else
        match get_current_user_from_cookie tok db now with
        | none => GateResult.redirect "/login" true
        | some user => GateResult.allow user

/-- The GET route table of `app/main.py`, matched after the middleware:
exact routes first, then the `/{path:path}` catch-all `serve_static`. -/
inductive Route where
  | api_auth
  | api_health
  | login_page
  | register_page
  | reset_password_page
  | forgot_password_page
  | root
  | serve_static (path : String)
deriving DecidableEq, Repr

/-- Route resolution for GET requests in `app/main.py`. -/
def route_of (path : String) : Route :=
  if strStartsWith path "/api/auth/" then Route.api_auth
  else if path = "/api/health" then Route.api_health
  else if path = "/login" then Route.login_page
  else if path = "/register" then Route.register_page
  else if path = "/reset-password" then Route.reset_password_page
  else if path = "/forgot-password" then Route.forgot_password_page
  else if path = "/" then Route.root
  else Route.serve_static (strDrop path 1)

/-! ### Helper lemmas -/

/-- Two members of a list whose keys are pairwise distinct and whose keys
agree are the same element. -/
theorem pairwise_key_eq {α β : Type} {key : α → β} {l : List α}
    (hpw : l.Pairwise (fun x y => key x ≠ key y)) {a b : α}
    (ha : a ∈ l) (hb : b ∈ l) (hk : key a = key b) : a = b := by
  by_contra hne
  exact List.Pairwise.forall (by intro x y h; exact h.symm) hpw ha hb hne hk

/-- The modelled hash is injective. -/
theorem hash_password_inj {p q : String} (h : hash_password p = hash_password q) : p = q := by
  have hd := congrArg String.data h
  rw [hash_password, hash_password, String.data_append, String.data_append] at hd
  have h2 := List.append_cancel_left hd
  cases p
  cases q
  exact congrArg String.mk h2

/-- Updating the first match of `p` puts the updated element in the list. -/
theorem updateFirst_mem {α : Type} (p : α → Bool) (f : α → α) :
    ∀ (l : List α) (a : α), l.find? p = some a → f a ∈ updateFirst p f l := by
  intro l
  induction l with
  | nil => intro a hfind; simp [List.find?] at hfind
  | cons x xs ih =>
    intro a hfind
    cases hx : p x with
    | true =>
      rw [List.find?_cons_of_pos _ hx] at hfind
      injection hfind with ha
      subst ha
      simp [updateFirst, hx]
    | false =>
      rw [List.find?_cons_of_neg _ (by simp [hx])] at hfind
      simpa [updateFirst, hx] using Or.inr (ih a hfind)

/-- When keys are pairwise distinct, `p`-matches determine the key `k`, and
`f` preserves keys, any element of the updated list carrying key `k` is the
update of the element `find?` located. -/
theorem updateFirst_key_unique {α β : Type} (key : α → β) (k : β)
    (p : α → Bool) (f : α → α)
    (hp : ∀ x, p x = true → key x = k)
    (hfk : ∀ x, key (f x) = key x) :
    ∀ (l : List α), l.Pairwise (fun x y => key x ≠ key y) →
      ∀ a, l.find? p = some a →
        ∀ b ∈ updateFirst p f l, key b = k → b = f a := by
  intro l
  induction l with
  | nil => intro _ a hfind; simp [List.find?] at hfind
  | cons x xs ih =>
    intro hpw a hfind b hb hbk
    rw [List.pairwise_cons] at hpw
    cases hx : p x with
    | true =>
      rw [List.find?_cons_of_pos _ hx] at hfind
      injection hfind with ha
      subst ha
      rw [updateFirst, if_pos hx] at hb
      rcases List.mem_cons.mp hb with h1 | h2
      · exact h1
      · exact absurd ((hp x hx).trans hbk.symm) (hpw.1 b h2)
    | false =>
      rw [List.find?_cons_of_neg _ (by simp [hx])] at hfind
      rw [updateFirst, if_neg (by simp [hx])] at hb
      rcases List.mem_cons.mp hb with h1 | h2
      · subst h1
        have hak : key a = k := hp a (List.find?_some hfind)
        exact absurd (hbk.trans hak.symm) (hpw.1 a (List.mem_of_find?_eq_some hfind))
      · exact ih hpw.2 a hfind b h2 hbk

/-- After updating the first `p`-match with an update that falsifies `q`, no
element of the list satisfies `q`, provided keys are pairwise distinct and
both `p` and `q` force the key `k`. -/
theorem updateFirst_not_q {α β : Type} (key : α → β) (k : β)
    (p q : α → Bool) (f : α → α)
    (hp : ∀ x, p x = true → key x = k)
    (hq : ∀ x, q x = true → key x = k)
    (hqf : ∀ x, q (f x) = false) :
    ∀ (l : List α), l.Pairwise (fun x y => key x ≠ key y) →
      ∀ a, l.find? p = some a →
        ∀ b ∈ updateFirst p f l, q b = false := by
  intro l
  induction l with
  | nil => intro _ a hfind; simp [List.find?] at hfind
  | cons x xs ih =>
    intro hpw a hfind b hb
    rw [List.pairwise_cons] at hpw
    cases hx : p x with
    | true =>
      rw [List.find?_cons_of_pos _ hx] at hfind
      injection hfind with ha
      subst ha
      rw [updateFirst, if_pos hx] at hb
      rcases List.mem_cons.mp hb with h1 | h2
      · subst h1; exact hqf x
      · cases hqb : q b with
        | false => rfl
        | true => exact absurd ((hp x hx).trans (hq b hqb).symm) (hpw.1 b h2)
    | false =>
      rw [List.find?_cons_of_neg _ (by simp [hx])] at hfind
      rw [updateFirst, if_neg (by simp [hx])] at hb
      rcases List.mem_cons.mp hb with h1 | h2
      · subst h1
        cases hqb : q b with
        | false => rfl
        | true =>
          have hak : key a = k := hp a (List.find?_some hfind)
          exact absurd ((hq b hqb).trans hak.symm)
            (hpw.1 a (List.mem_of_find?_eq_some hfind))
      · exact ih hpw.2 a hfind b h2

/-- Retiring the unused tokens of an account leaves it with no unused
tokens. -/
theorem retire_filter_nil (uid : Nat) (l : List PasswordResetToken) :
    (l.map (fun t =>
      if t.user_id == uid && !t.used then { t with used := true } else t)).filter
      (fun t => t.user_id == uid && !t.used) = [] := by
  induction l with
  | nil => rfl
  | cons t ts ih =>
    simp only [List.map_cons, List.filter_cons]
    cases hc : (t.user_id == uid && !t.used) with
    | true => simpa using ih
    | false => simpa [Bool.and_eq_true, hc] using ih

/-- A password violating any of the four policy conditions is rejected by
the validator. -/
theorem validate_password_error_of_bad (pw : String)
    (h : strLen pw < 10 ∨ strAny pw Char.isUpper = false ∨
      strAny pw Char.isLower = false ∨ strAny pw Char.isDigit = false) :
    ∃ e, validate_password pw = Except.error e := by
  rw [validate_password]
  by_cases h1 : strLen pw < 10
  · exact ⟨_, by rw [if_pos h1]⟩
  · rw [if_neg h1]
    cases h2 : strAny pw Char.isUpper with
    | false => exact ⟨_, by rw [if_pos rfl]⟩
    | true =>
      rw [if_neg (by simp)]
      cases h3 : strAny pw Char.isLower with
      | false => exact ⟨_, by rw [if_pos rfl]⟩
      | true =>
        rw [if_neg (by simp)]
        cases h4 : strAny pw Char.isDigit with
        | false => exact ⟨_, by rw [if_pos rfl]⟩
        | true =>
          rcases h with h | h | h | h
          · exact absurd h h1
          · exact absurd h2 (h ▸ (by simp))
          · exact absurd h3 (h ▸ (by simp))
          · exact absurd h4 (h ▸ (by simp))

/-! ### Concrete fixtures used by witnesses and counterexamples -/

/-- The empty store. -/
def emptyDB : DB := ⟨[], [], []⟩

/-- A registered active account. -/
def alice : User :=
  ⟨1, "alice@vysusgroup.com", hash_password "OldSecret12", none, true, 0⟩

/-- A deactivated account. -/
def bob : User :=
  ⟨2, "bob@vysusgroup.com", hash_password "BobSecret12", none, false, 0⟩

/-- A live session of `alice`, expiring at instant 1000. -/
def aliceSession : SessionModel := ⟨10, 1, "sess-token-1", 1000, none, ""⟩

/-- A consumable reset token of `alice`, expiring at instant 500. -/
def aliceReset : PasswordResetToken := ⟨20, 1, "reset-token-1", 500, false⟩

/-- A store holding `alice` (active, one session, one consumable reset
token) and `bob` (deactivated). -/
def db1 : DB := ⟨[alice, bob], [aliceSession], [aliceReset]⟩

/-! ### Claim theorems -/

/-- C3: a login with an email matching no stored account and a login with the
email of an existing active account but a failing password produce the same
`401 Unauthorized` outcome with the same body and unchanged state — no signal
distinguishes the two cases. -/
theorem c3_login_enumeration_resistance
    (db : DB) (email1 pw1 email2 pw2 new_token : String) (new_id now : Nat)
    (ip_address : Option String) (user_agent environment : String) (u : User)
    (h1 : db.users.find? (fun x => x.email == strLower email1) = none)
    (h2 : db.users.find? (fun x => x.email == strLower email2) = some u)
    (hact : u.is_active = true)
    (hpw : verify_password pw2 u.hashed_password = false) :
    login db email1 pw1 new_token new_id now ip_address user_agent environment =
      LoginResult.err 401 "Invalid email or password" db ∧
    login db email2 pw2 new_token new_id now ip_address user_agent environment =
      LoginResult.err 401 "Invalid email or password" db ∧
    login db email1 pw1 new_token new_id now ip_address user_agent environment =
      login db email2 pw2 new_token new_id now ip_address user_agent environment := by
  have e1 : login db email1 pw1 new_token new_id now ip_address user_agent environment =
      LoginResult.err 401 "Invalid email or password" db := by
    simp [login, h1]
  have e2 : login db email2 pw2 new_token new_id now ip_address user_agent environment =
      LoginResult.err 401 "Invalid email or password" db := by
    simp [login, h2, hpw]
  exact ⟨e1, e2, e1.trans e2.symm⟩

/-- Witness for C3 on concrete store `db1`. -/
theorem c3_witness :
    login db1 "carol@vysusgroup.com" "Whatever123" "tok" 30 0 none "" "development" =
      LoginResult.err 401 "Invalid email or password" db1 ∧
    login db1 "alice@vysusgroup.com" "WrongPass99" "tok" 30 0 none "" "development" =
      LoginResult.err 401 "Invalid email or password" db1 ∧
    login db1 "carol@vysusgroup.com" "Whatever123" "tok" 30 0 none "" "development" =
      login db1 "alice@vysusgroup.com" "WrongPass99" "tok" 30 0 none "" "development" :=
  c3_login_enumeration_resistance db1 "carol@vysusgroup.com" "Whatever123"
    "alice@vysusgroup.com" "WrongPass99" "tok" 30 0 none "" "development" alice
    (by decide) (by decide) (by decide) (by decide)

/-- C10: for a deactivated account, a wrong password yields `401` (the
password check precedes the active-flag check), and the `403 Forbidden`
outcome is reachable only with the account's correct password. -/
theorem c10_login_verify_before_active_check
    (db : DB) (email password new_token : String) (new_id now : Nat)
    (ip_address : Option String) (user_agent environment : String) :
    (∀ u, db.users.find? (fun x => x.email == strLower email) = some u →
      u.is_active = false →
      verify_password password u.hashed_password = false →
      login db email password new_token new_id now ip_address user_agent environment =
        LoginResult.err 401 "Invalid email or password" db) ∧
    (∀ (d : String) (db2 : DB),
      login db email password new_token new_id now ip_address user_agent environment =
        LoginResult.err 403 d db2 →
      ∃ u, db.users.find? (fun x => x.email == strLower email) = some u ∧
        verify_password password u.hashed_password = true ∧ u.is_active = false) := by
  constructor
  · intro u hu hin hv
    simp [login, hu, hv]
  · intro d db2 h
    cases hf : db.users.find? (fun x => x.email == strLower email) with
    | none => simp [login, hf] at h
    | some u =>
      cases hv : verify_password password u.hashed_password with
      | false => simp [login, hf, hv] at h
      | true =>
        cases ha : u.is_active with
        | true => simp [login, hf, hv, ha] at h
        | false => exact ⟨u, rfl, hv, ha⟩

/-- Witness for C10: wrong password for the deactivated account `bob`. -/
theorem c10_witness :
    login db1 "bob@vysusgroup.com" "WrongBob123" "tok" 31 0 none "" "development" =
      LoginResult.err 401 "Invalid email or password" db1 :=
  (c10_login_verify_before_active_check db1 "bob@vysusgroup.com" "WrongBob123"
      "tok" 31 0 none "" "development").1 bob (by decide) (by decide) (by decide)

/-- C8: an email not ending in the approved suffix makes `register` fail with
a `ValidationError` and an unchanged store, and a password failing any of the
four policy conditions makes both `register` and `reset_password` fail with a
`ValidationError` and an unchanged store. -/
theorem c8_register_reset_validation
    (db : DB) (email password : String) (full_name : Option String)
    (new_id now : Nat) (token : String) :
    (strEndsWith (strLower email) "@vysusgroup.com" = false →
      register db email password full_name new_id now =
        RegisterResult.validationError "Only @vysusgroup.com emails are allowed" db) ∧
    ((strLen password < 10 ∨ strAny password Char.isUpper = false ∨
        strAny password Char.isLower = false ∨ strAny password Char.isDigit = false) →
      (∃ e, register db email password full_name new_id now =
        RegisterResult.validationError e db) ∧
      (∃ e, reset_password db token password now = ResetResult.validationError e db)) := by
  constructor
  · intro h
    simp [register, validate_vysus_email, h]
  · intro h
    obtain ⟨e, he⟩ := validate_password_error_of_bad password h
    constructor
    · cases hev : validate_vysus_email email with
      | error e2 => exact ⟨e2, by simp [register, hev]⟩
      | ok em => exact ⟨e, by simp [register, hev, he]⟩
    · exact ⟨e, by simp [reset_password, he]⟩

/-- Witness for C8: a non-approved email domain and a password with no
digit. -/
theorem c8_witness :
    register emptyDB "mallory@gmail.com" "GoodPass123" none 5 0 =
      RegisterResult.validationError "Only @vysusgroup.com emails are allowed" emptyDB ∧
    (∃ e, register emptyDB "dave@vysusgroup.com" "NoDigitsHere" none 5 0 =
      RegisterResult.validationError e emptyDB) ∧
    (∃ e, reset_password emptyDB "t9" "NoDigitsHere" 0 =
      ResetResult.validationError e emptyDB) :=
  ⟨(c8_register_reset_validation emptyDB "mallory@gmail.com" "GoodPass123" none 5 0 "t9").1
      (by decide),
   ((c8_register_reset_validation emptyDB "dave@vysusgroup.com" "NoDigitsHere" none 5 0 "t9").2
      (Or.inr (Or.inr (Or.inr (by decide))))).1,
   ((c8_register_reset_validation emptyDB "dave@vysusgroup.com" "NoDigitsHere" none 5 0 "t9").2
      (Or.inr (Or.inr (Or.inr (by decide))))).2⟩

/-- C9: a path is classified public exactly when it starts with one of the
seven literal prefixes; every public path bypasses the authentication check
entirely, and a public path that is not one of the fixed routes is handled by
the protected static-file catch-all. -/
theorem c9_public_prefix_classification
    (path : String) (cookie : Option String) (db : DB) (now : Nat) (fault : Bool) :
    (is_public path = true ↔
      (strStartsWith path "/login" = true ∨ strStartsWith path "/register" = true ∨
       strStartsWith path "/reset-password" = true ∨
       strStartsWith path "/forgot-password" = true ∨
       strStartsWith path "/api/auth/" = true ∨ strStartsWith path "/api/health" = true ∨
       strStartsWith path "/favicon.ico" = true)) ∧
    (is_public path = true → dispatch path cookie db now fault = GateResult.next) ∧
    (is_public path = true → strStartsWith path "/api/auth/" = false →
      path ≠ "/api/health" → path ≠ "/login" → path ≠ "/register" →
      path ≠ "/reset-password" → path ≠ "/forgot-password" → path ≠ "/" →
      route_of path = Route.serve_static (strDrop path 1)) := by
  refine ⟨?_, ?_, ?_⟩
  · simp [is_public, PUBLIC_PATHS, List.any_cons, List.any_nil, or_assoc]
  · intro h
    simp [dispatch, h]
  · intro h hapi h1 h2 h3 h4 h5 h6
    rw [route_of, if_neg (by simp [hapi]), if_neg h1, if_neg h2, if_neg h3,
      if_neg h4, if_neg h5, if_neg h6]

/-- Witness for C9: `/login-theme.css` extends the `/login` prefix, is
classified public, bypasses the gate, and reaches the static catch-all. -/
theorem c9_witness :
    is_public "/login-theme.css" = true ∧
    dispatch "/login-theme.css" none emptyDB 0 false = GateResult.next ∧
    route_of "/login-theme.css" = Route.serve_static "login-theme.css" := by
  have h := c9_public_prefix_classification "/login-theme.css" none emptyDB 0 false
  have hp : is_public "/login-theme.css" = true := h.1.mpr (Or.inl (by decide))
  refine ⟨hp, h.2.1 hp, ?_⟩
  have hr := h.2.2 hp (by decide) (by decide) (by decide) (by decide) (by decide)
    (by decide) (by decide)
  rw [hr]
  decide

/-- C5 counterexample: on a protected path with a cookie present, an
unexpected fault during session resolution makes the gate redirect WITHOUT
instructing cookie deletion, contradicting the claim that deletion is
instructed in the fault case as well. -/
theorem c5_counterexample :
    is_public "/training-plan.html" = false ∧
    dispatch "/training-plan.html" (some "stale-token") emptyDB 0 true =
      GateResult.redirect "/login" false ∧
    dispatch "/training-plan.html" (some "stale-token") emptyDB 0 true ≠
      GateResult.redirect "/login" true := by
  refine ⟨by decide, by decide, by decide⟩

/-- C5 amended: on a protected path the gate always fails closed with a
redirect to `/login`; it instructs cookie deletion exactly when resolution
completes without a fault on a non-empty cookie and yields no account, while
a fault (or an empty cookie value) redirects without cookie deletion. -/
theorem c5_amended_fail_closed
    (path tok : String) (db : DB) (now : Nat) (fault : Bool)
    (hpub : is_public path = false) :
    (tok = "" → dispatch path (some tok) db now fault = GateResult.redirect "/login" false) ∧
    (tok ≠ "" → fault = true →
      dispatch path (some tok) db now fault = GateResult.redirect "/login" false) ∧
    (tok ≠ "" → fault = false → get_current_user_from_cookie tok db now = none →
      dispatch path (some tok) db now fault = GateResult.redirect "/login" true) := by
  refine ⟨?_, ?_, ?_⟩
  · intro h
    subst h
    simp [dispatch, hpub]
  · intro h hf
    subst hf
    simp [dispatch, hpub, h]
  · intro h hf hres
    subst hf
    simp [dispatch, hpub, h, hres]

/-- Witness for the amended C5: completed resolution with no account deletes
the cookie. -/
theorem c5_amended_witness :
    dispatch "/x" (some "deadbeef") emptyDB 0 false = GateResult.redirect "/login" true :=
  (c5_amended_fail_closed "/x" "deadbeef" emptyDB 0 false (by decide)).2.2
    (by decide) rfl (by decide)

/-- C7 counterexample: with a token that is not consumable AND a
policy-violating password, `reset_password` fails with the pydantic
`ValidationError`, not with `InvalidOrExpired` — the password validation is
decided first, against the claim. -/
theorem c7_counterexample :
    find_consumable "ghost-token" 0 emptyDB.reset_tokens = none ∧
    reset_password emptyDB "ghost-token" "short" 0 =
      ResetResult.validationError "Password must be at least 10 characters" emptyDB ∧
    reset_password emptyDB "ghost-token" "short" 0 ≠
      ResetResult.err 400 "Invalid or expired reset token" emptyDB := by
  refine ⟨rfl, rfl, by decide⟩

/-- C7 amended: the password policy is validated before the token check
(pydantic runs on the request body first); `InvalidOrExpired` is reserved for
calls whose password satisfies the policy but whose token is not
consumable. -/
theorem c7_amended_validation_first
    (db : DB) (token password : String) (now : Nat) :
    (∀ e, validate_password password = Except.error e →
      reset_password db token password now = ResetResult.validationError e db) ∧
    (validate_password password = Except.ok password →
      find_consumable token now db.reset_tokens = none →
      reset_password db token password now =
        ResetResult.err 400 "Invalid or expired reset token" db) := by
  constructor
  · intro e he
    simp [reset_password, he]
  · intro hv hf
    simp [reset_password, hv, hf]

/-- Witness for the amended C7. -/
theorem c7_amended_witness :
    reset_password emptyDB "t1" "short" 0 =
      ResetResult.validationError "Password must be at least 10 characters" emptyDB ∧
    reset_password emptyDB "t1" "GoodPass123" 0 =
      ResetResult.err 400 "Invalid or expired reset token" emptyDB :=
  ⟨(c7_amended_validation_first emptyDB "t1" "short" 0).1 _ rfl,
   (c7_amended_validation_first emptyDB "t1" "GoodPass123" 0).2 rfl rfl⟩

/-- C6: `forgot_password` always answers with the same generic body; the
store is unchanged unless an active account matches the email, and when one
does, the account's unused reset tokens after the call are exactly the single
freshly created row (all previously unused ones having been retired), with
accounts and sessions untouched. -/
theorem c6_forgot_password_contract
    (db : DB) (email new_token : String) (new_id now : Nat) :
    (forgot_password db email new_token new_id now).1 =
      "If an account exists with this email, you will receive a password reset link." ∧
    (db.users.find? (fun u => u.email == strLower email) = none →
      (forgot_password db email new_token new_id now).2 = db) ∧
    (∀ u, db.users.find? (fun u => u.email == strLower email) = some u →
      u.is_active = false → (forgot_password db email new_token new_id now).2 = db) ∧
    (∀ u, db.users.find? (fun u => u.email == strLower email) = some u →
      u.is_active = true →
      (forgot_password db email new_token new_id now).2.users = db.users ∧
      (forgot_password db email new_token new_id now).2.sessions = db.sessions ∧
      (forgot_password db email new_token new_id now).2.reset_tokens.filter
          (fun t => t.user_id == u.id && !t.used) =
        [⟨new_id, u.id, new_token, get_password_reset_expiry now, false⟩]) := by
  refine ⟨?_, ?_, ?_, ?_⟩
  · cases hf : db.users.find? (fun u => u.email == strLower email) with
    | none => simp [forgot_password, hf]
    | some u =>
      cases ha : u.is_active with
      | true => simp [forgot_password, hf, ha]
      | false => simp [forgot_password, hf, ha]
  · intro h
    simp [forgot_password, h]
  · intro u hu ha
    simp [forgot_password, hu, ha]
  · intro u hu ha
    refine ⟨by simp [forgot_password, hu, ha], by simp [forgot_password, hu, ha], ?_⟩
    simp only [forgot_password, hu, ha, if_true]
    rw [List.filter_append, retire_filter_nil]
    simp

/-- Witness for C6 on `db1` (active account `alice` with one previously
unused token). -/
theorem c6_witness :
    (forgot_password db1 "alice@vysusgroup.com" "reset-token-2" 21 100).1 =
      "If an account exists with this email, you will receive a password reset link." ∧
    (forgot_password db1 "alice@vysusgroup.com" "reset-token-2" 21 100).2.reset_tokens.filter
        (fun t => t.user_id == alice.id && !t.used) =
      [⟨21, alice.id, "reset-token-2", get_password_reset_expiry 100, false⟩] := by
  have h := c6_forgot_password_contract db1 "alice@vysusgroup.com" "reset-token-2" 21 100
  exact ⟨h.1, (h.2.2.2 alice (by decide) (by decide)).2.2⟩

/-- C4: session resolution yields an account exactly when the token is
non-empty, an unexpired session row carries that token, and that session's
owning account exists and is active; in every other case it yields none.
The function is pure: it takes the store and returns only an optional
account, so it performs no mutation. -/
theorem c4_resolve_session_characterisation
    (db : DB) (tok : String) (now : Nat)
    (hstok : db.sessions.Pairwise (fun a b => a.session_token ≠ b.session_token)) :
    (∃ u, get_current_user_from_cookie tok db now = some u) ↔
      (tok ≠ "" ∧ ∃ s ∈ db.sessions, s.session_token = tok ∧ now < s.expires_at ∧
        ∃ u ∈ db.users, u.id = s.user_id ∧ u.is_active = true) := by
  constructor
  · rintro ⟨u, hu⟩
    rw [get_current_user_from_cookie] at hu
    by_cases ht : tok = ""
    · rw [if_pos ht] at hu
      cases hu
    · rw [if_neg ht] at hu
      cases hf : db.sessions.find? (fun s =>
          s.session_token == tok && decide (now < s.expires_at)) with
      | none =>
        rw [hf] at hu
        cases hu
      | some s =>
        rw [hf] at hu
        have hps := List.find?_some hf
        have hsm := List.mem_of_find?_eq_some hf
        have hpu := List.find?_some hu
        have hum := List.mem_of_find?_eq_some hu
        simp only [Bool.and_eq_true, beq_iff_eq, decide_eq_true_eq] at hps hpu
        exact ⟨ht, s, hsm, hps.1, hps.2, u, hum, hpu.1, hpu.2⟩
  · rintro ⟨ht, s, hs, hstk, hexp, u, hu, huid, hact⟩
    rw [get_current_user_from_cookie, if_neg ht]
    cases hf : db.sessions.find? (fun x =>
        x.session_token == tok && decide (now < x.expires_at)) with
    | none =>
      exfalso
      have : ∀ x ∈ db.sessions,
          ¬(x.session_token == tok && decide (now < x.expires_at)) = true :=
        List.find?_eq_none.mp hf
      exact this s hs (by simp [hstk, hexp])
    | some s2 =>
      have hps2 := List.find?_some hf
      simp only [Bool.and_eq_true, beq_iff_eq, decide_eq_true_eq] at hps2
      have hs2 : s2 = s :=
        pairwise_key_eq hstok (List.mem_of_find?_eq_some hf) hs
          (hps2.1.trans hstk.symm)
      subst hs2
      have husome : (db.users.find? (fun x => x.id == s2.user_id && x.is_active)).isSome := by
        rw [List.find?_isSome]
        exact ⟨u, hu, by simp [huid, hact]⟩
      obtain ⟨u2, hu2⟩ := Option.isSome_iff_exists.mp husome
      exact ⟨u2, hu2⟩

/-- Witness for C4: the live session of `alice` in `db1` resolves, matching
the characterisation at time 500. -/
theorem c4_witness :
    (∃ u, get_current_user_from_cookie "sess-token-1" db1 500 = some u) ↔
      ("sess-token-1" ≠ "" ∧ ∃ s ∈ db1.sessions, s.session_token = "sess-token-1" ∧
        500 < s.expires_at ∧ ∃ u ∈ db1.users, u.id = s.user_id ∧ u.is_active = true) :=
  c4_resolve_session_characterisation db1 "sess-token-1" 500 (by simp [db1])

/-- C1: a successful `reset_password` call returns a single successor state
(the handler commits once, so the three effects are one atomic unit) in
which every session row of the owning account is gone — resolution of any
previously issued session token of the account yields none at any time — the
account's digest is replaced so that exactly the new password verifies, and
the reset token row is marked used. -/
theorem c1_reset_password_success_effects
    (db : DB) (token new_password : String) (now : Nat)
    (rt : PasswordResetToken) (user : User)
    (hval : validate_password new_password = Except.ok new_password)
    (hfind : find_consumable token now db.reset_tokens = some rt)
    (huser : db.users.find? (fun u => u.id == rt.user_id) = some user)
    (hstok : db.sessions.Pairwise (fun a b => a.session_token ≠ b.session_token))
    (hrtok : db.reset_tokens.Pairwise (fun a b => a.token ≠ b.token))
    (huid : db.users.Pairwise (fun a b => a.id ≠ b.id)) :
    ∃ db', reset_password db token new_password now =
        ResetResult.ok "Password reset successful. Please log in with your new password." db' ∧
      (∀ s ∈ db'.sessions, s.user_id ≠ user.id) ∧
      (∀ s ∈ db.sessions, s.user_id = user.id →
        ∀ now2 : Nat, get_current_user_from_cookie s.session_token db' now2 = none) ∧
      (∀ u ∈ db'.users, u.id = rt.user_id →
        u.hashed_password = hash_password new_password ∧
        verify_password new_password u.hashed_password = true ∧
        (∀ p : String, p ≠ new_password → verify_password p u.hashed_password = false)) ∧
      (∃ u ∈ db'.users, u.id = rt.user_id ∧
        u.hashed_password = hash_password new_password) ∧
      (∀ t ∈ db'.reset_tokens, t.token = token → t.used = true) := by
  have hfind' : db.reset_tokens.find?
      (fun t => t.token == token && !t.used && decide (now < t.expires_at)) = some rt := hfind
  have huid_eq : user.id = rt.user_id := by
    have := List.find?_some huser
    simpa using this
  simp only [reset_password, hval, hfind, huser]
  refine ⟨_, rfl, ?_, ?_, ?_, ?_, ?_⟩
  · intro s hs
    have hm := List.mem_filter.mp hs
    simpa using hm.2
  · intro s hs hsu now2
    rw [get_current_user_from_cookie]
    by_cases hte : s.session_token = ""
    · rw [if_pos hte]
    · rw [if_neg hte]
      have hnone : (db.sessions.filter (fun x => !(x.user_id == user.id))).find?
          (fun x => x.session_token == s.session_token && decide (now2 < x.expires_at)) =
          none := by
        rw [List.find?_eq_none]
        intro x hx hpx
        have hxm := List.mem_filter.mp hx
        simp only [Bool.and_eq_true, beq_iff_eq, decide_eq_true_eq] at hpx
        have hxs : x = s := pairwise_key_eq hstok hxm.1 hs hpx.1
        subst hxs
        simp [hsu] at hxm
      rw [hnone]
  · intro u hu huid2
    have hb :
        u = { user with hashed_password := hash_password new_password, updated_at := now } :=
      updateFirst_key_unique (fun x : User => x.id) rt.user_id
        (fun x => x.id == rt.user_id)
        (fun x => { x with hashed_password := hash_password new_password, updated_at := now })
        (fun x hx => by simpa using hx) (fun x => rfl)
        db.users huid user huser u hu huid2
    subst hb
    refine ⟨rfl, by simp [verify_password], ?_⟩
    intro p hp
    simp only [verify_password]
    rw [beq_eq_false_iff_ne]
    exact fun h => hp (hash_password_inj h)
  · refine ⟨{ user with hashed_password := hash_password new_password, updated_at := now },
      updateFirst_mem _ _ db.users user huser, by simpa using huid_eq, rfl⟩
  · intro t ht httok
    have hb : t = { rt with used := true } :=
      updateFirst_key_unique (fun x : PasswordResetToken => x.token) token
        (fun x => x.token == token && !x.used && decide (now < x.expires_at))
        (fun x => { x with used := true })
        (fun x hx => by
          simp only [Bool.and_eq_true, beq_iff_eq] at hx
          exact hx.1.1)
        (fun x => rfl)
        db.reset_tokens hrtok rt hfind' t ht httok
    rw [hb]

/-- Witness for C1: `alice` resets her password with her consumable token in
`db1`. -/
theorem c1_witness :
    ∃ db', reset_password db1 "reset-token-1" "NewSecret12" 0 =
        ResetResult.ok "Password reset successful. Please log in with your new password." db' ∧
      (∀ s ∈ db'.sessions, s.user_id ≠ alice.id) ∧
      (∀ s ∈ db1.sessions, s.user_id = alice.id →
        ∀ now2 : Nat, get_current_user_from_cookie s.session_token db' now2 = none) ∧
      (∀ u ∈ db'.users, u.id = aliceReset.user_id →
        u.hashed_password = hash_password "NewSecret12" ∧
        verify_password "NewSecret12" u.hashed_password = true ∧
        (∀ p : String, p ≠ "NewSecret12" → verify_password p u.hashed_password = false)) ∧
      (∃ u ∈ db'.users, u.id = aliceReset.user_id ∧
        u.hashed_password = hash_password "NewSecret12") ∧
      (∀ t ∈ db'.reset_tokens, t.token = "reset-token-1" → t.used = true) :=
  c1_reset_password_success_effects db1 "reset-token-1" "NewSecret12" 0 aliceReset alice
    rfl (by decide) (by decide) (by simp [db1]) (by simp [db1]) (by decide)

/-- C2: with the same consumable token, the first `reset_password` call
succeeds and the second fails with `InvalidOrExpired` (the used flag set by
the first call prevents reuse), leaving the state reached after the first
call unchanged. -/
theorem c2_reset_token_single_use
    (db : DB) (token new_password : String) (now now2 : Nat)
    (rt : PasswordResetToken) (user : User)
    (hval : validate_password new_password = Except.ok new_password)
    (hfind : find_consumable token now db.reset_tokens = some rt)
    (huser : db.users.find? (fun u => u.id == rt.user_id) = some user)
    (hrtok : db.reset_tokens.Pairwise (fun a b => a.token ≠ b.token)) :
    ∃ db', reset_password db token new_password now =
        ResetResult.ok "Password reset successful. Please log in with your new password." db' ∧
      reset_password db' token new_password now2 =
        ResetResult.err 400 "Invalid or expired reset token" db' := by
  have hfind' : db.reset_tokens.find?
      (fun t => t.token == token && !t.used && decide (now < t.expires_at)) = some rt := hfind
  simp only [reset_password, hval, hfind, huser]
  refine ⟨_, rfl, ?_⟩
  have hnone : find_consumable token now2
      (updateFirst (fun t => t.token == token && !t.used && decide (now < t.expires_at))
        (fun t => { t with used := true }) db.reset_tokens) = none := by
    rw [find_consumable, List.find?_eq_none]
    intro b hb
    have hq := updateFirst_not_q (fun x : PasswordResetToken => x.token) token
      (fun x => x.token == token && !x.used && decide (now < x.expires_at))
      (fun x => x.token == token && !x.used && decide (now2 < x.expires_at))
      (fun x => { x with used := true })
      (fun x hx => by
        simp only [Bool.and_eq_true, beq_iff_eq] at hx
        exact hx.1.1)
      (fun x hx => by
        simp only [Bool.and_eq_true, beq_iff_eq] at hx
        exact hx.1.1)
      (fun x => by simp)
      db.reset_tokens hrtok rt hfind' b hb
    simp [hq]
  simp only [reset_password, hval, hnone]

/-- Witness for C2 on `db1`. -/
theorem c2_witness :
    ∃ db', reset_password db1 "reset-token-1" "NewSecret12" 0 =
        ResetResult.ok "Password reset successful. Please log in with your new password." db' ∧
      reset_password db' "reset-token-1" "NewSecret12" 0 =
        ResetResult.err 400 "Invalid or expired reset token" db' :=
  c2_reset_token_single_use db1 "reset-token-1" "NewSecret12" 0 0 aliceReset alice
    rfl (by decide) (by decide) (by simp [db1])

end Sentinel
